import Mathlib

/-!
Shallow embedding of the three validation scripts of the `testmu-skills`
repository:

* `playwright-automation-skill/scripts/validate-config.py` (configuration-file validator),
* `shared/scripts/validate-capabilities.py` (capability-descriptor validator),
* `scripts/validate_skills.py` (skill-directory validator).

Python strings are modelled as Lean `String` (a packed `List Char`, matching
Python's code-point indexing for the ASCII inputs the rules inspect), parsed
JSON values as the inductive `JVal`, dictionaries as insertion-ordered
association lists, and machine effects (file loading, CLI parsing, process
exit) as explicit sum types.  Fallible evaluation (Python `AttributeError`
from calling `.lower()` on a non-string) is modelled with `Except`.
-/

namespace TestMu

/-- Single-quote character, written via its code point. -/
def squote : Char := Char.ofNat 39

/-- Double-quote character, written via its code point. -/
def dquote : Char := Char.ofNat 34

/-- ASCII whitespace recognised by Python's `\s`, `str.strip` and friends
(`[ \t\n\r\f\v]`; non-ASCII Unicode whitespace does not occur in any input
the rules inspect). -/
def isPySpace (c : Char) : Bool :=
  c = ' ' || c = '\t' || c = '\n' || c = '\r' || c = '\x0b' || c = '\x0c'

/-- Python `str.lower` on one character (ASCII range; the validators only
lower-case ASCII identifiers such as browser and platform names). -/
def lowerChar (c : Char) : Char :=
  if 65 ≤ c.toNat ∧ c.toNat ≤ 90 then Char.ofNat (c.toNat + 32) else c

/-- Python `str.lower`. -/
def pyLower (s : String) : String := ⟨s.data.map lowerChar⟩

/-- Does `sub` occur as a contiguous run inside `l`?  This is Python's
`sub in s` substring test. -/
def subOccurs (sub : List Char) : List Char → Bool
  | [] => sub.isEmpty
  | c :: r => sub.isPrefixOf (c :: r) || subOccurs sub r

/-- Python `sub in s` for strings. -/
def pyContains (s sub : String) : Bool := subOccurs sub.data s.data

/-- Python `s.startswith(pre)`. -/
def strStartsWith (s pre : String) : Bool := pre.data.isPrefixOf s.data

/-- Helper for `pySplit`; `fuel` bounds the recursion (it starts at
`l.length + 1`, and every step either stops or consumes at least one
character, so the fuel never runs out). -/
def pySplitAux (sep : List Char) : Nat → List Char → List Char → List String
  | 0, _, acc => [⟨acc.reverse⟩]
  | fuel + 1, l, acc =>
    if sep.isPrefixOf l then
      ⟨acc.reverse⟩ :: pySplitAux sep fuel (l.drop sep.length) []
    else
      match l with
      | [] => [⟨acc.reverse⟩]
      | c :: r => pySplitAux sep fuel r (c :: acc)

/-- Python `s.split(sep)` for a non-empty separator: scans left to right,
emitting the (possibly empty) chunks between non-overlapping occurrences of
`sep`; the result always has at least one element. -/
def pySplit (s sep : String) : List String :=
  pySplitAux sep.data (s.data.length + 1) s.data []

/-- Helper for `pyFindFrom`: first index (counting from `i`) at which `sub`
starts in `l`. -/
def pyFindAux (sub : List Char) : List Char → Nat → Option Nat
  | [], i => if sub.isEmpty then some i else none
  | c :: r, i => if sub.isPrefixOf (c :: r) then some i else pyFindAux sub r (i + 1)

/-- Python `s.find(sub, start)` returning `none` instead of `-1`. -/
def pyFindFrom (s sub : String) (start : Nat) : Option Nat :=
  pyFindAux sub.data (s.data.drop start) start

/-- Python slice `s[a:b]` (character indices, clamped like Python slices). -/
def pySlice (s : String) (a b : Nat) : String := ⟨(s.data.take b).drop a⟩

/-- Python `s.strip()` (ASCII whitespace, see `isPySpace`). -/
def pyStrip (s : String) : String :=
  ⟨((s.data.dropWhile isPySpace).reverse.dropWhile isPySpace).reverse⟩

/-- Python `sep.join(parts)`. -/
def pyJoin (sep : String) : List String → String
  | [] => ""
  | [x] => x
  | x :: r => x ++ sep ++ pyJoin sep r

/-- Stable insertion used by `pySortStrs`. -/
def insertStr (x : String) : List String → List String
  | [] => [x]
  | y :: ys => if decide (y < x) then y :: insertStr x ys else x :: y :: ys

/-- Python `sorted(...)` on a list of strings (code-point order; insertion
sort, which, being stable, agrees with any other stable sort). -/
def pySortStrs (l : List String) : List String := l.foldr insertStr []

/-! ### JSON value model (for the capability-descriptor validator)

`json.load` produces strings, booleans, `None`, numbers and dicts; the
descriptors the claims exercise use no arrays, so arrays are omitted from
the model (a JSON array would behave like an object at every truthiness
test and raise `TypeError` at the `in`-set test, see `pyInStrSet`).
Numbers are modelled as integers (no rule inspects a numeric value beyond
truthiness). -/

inductive JVal where
  | str (s : String)
  | bool (b : Bool)
  | null
  | num (n : Int)
  | obj (fields : List (String × JVal))

/-- A parsed JSON object: insertion-ordered key/value pairs (Python dicts
keep insertion order and, after `json.load`, have pairwise-distinct keys). -/
abbrev JObj := List (String × JVal)

/-- Python truthiness (`bool(v)`) of a JSON value. -/
def truthy : JVal → Bool
  | .str s => !(s == "")
  | .bool b => b
  | .null => false
  | .num n => !(n == 0)
  | .obj [] => false
  | .obj (_ :: _) => true

/-- Truthiness of `dict.get(k)` (Python `None` when the key is absent). -/
def truthyO : Option JVal → Bool
  | none => false
  | some v => truthy v

/-- `d.get(k)`: the value bound to `k`, if any (first binding; keys are
distinct in any parsed object). -/
def dget : JObj → String → Option JVal
  | [], _ => none
  | (k2, v) :: r, k => if k2 == k then some v else dget r k

/-- Remove every binding of key `k`. -/
def removeKey (d : JObj) (k : String) : JObj :=
  d.filter (fun kv => !(kv.1 == k))

/-- Is the value the literal string `s`?  Python `v == s` for a string
literal `s` is `False` on every non-string value. -/
def isStrEq (v : JVal) (s : String) : Bool :=
  match v with
  | .str t => t == s
  | _ => false

mutual

/-- Python's `repr` of a value as it appears inside a dict display:
strings are single-quoted (embedded-quote escaping is not reproduced; no
rule output in scope interpolates such a value). -/
def pyReprV : JVal → String
  | .str s => ⟨[squote]⟩ ++ s ++ ⟨[squote]⟩
  | .bool true => "True"
  | .bool false => "False"
  | .null => "None"
  | .num n => toString n
  | .obj fields => "\x7b" ++ pyJoin ", " (pyReprFields fields) ++ "\x7d"

/-- The `'key': repr(value)` entries of a dict display. -/
def pyReprFields : List (String × JVal) → List String
  | [] => []
  | (k, v) :: r => (⟨[squote]⟩ ++ k ++ ⟨[squote]⟩ ++ ": " ++ pyReprV v) :: pyReprFields r

end

/-- Python's `f"{v}"` (`str(v)`): like `pyReprV` except that a bare string
interpolates without quotes. -/
def pyStr : JVal → String
  | .str s => s
  | v => pyReprV v

/-- Runtime faults of the capability validator, none of which any caller
catches: calling `.lower()` (or `.keys()`) on a value that does not
support it raises `AttributeError`, and testing an unhashable value (a
dict) for membership in a set raises `TypeError`. -/
inductive PyErr where
  | attributeError
  | typeError

/-- Python `.lower()` on a JSON value: defined only for strings. -/
def pyLowerJ : JVal → Except PyErr String
  | .str s => .ok (pyLower s)
  | _ => .error .attributeError

/-! ### Capability-descriptor validator (`shared/scripts/validate-capabilities.py`) -/

/-- `VALID_BROWSERS` (source order). -/
def validBrowsers : List String :=
  ["Chrome", "MicrosoftEdge", "pw-chromium", "pw-firefox", "pw-webkit", "Firefox", "Safari"]

/-- `VALID_PLATFORMS` (source order). -/
def validPlatforms : List String :=
  ["Windows 11", "Windows 10",
   "macOS Sequoia", "macOS Sonoma", "macOS Ventura",
   "macOS Monterey", "macOS Big Sur", "macOS Catalina"]

/-- `VALID_MOBILE_PLATFORMS`. -/
def validMobilePlatforms : List String := ["android", "ios"]

/-- `VALID_LT_OPTIONS`. -/
def validLTOptions : List String :=
  ["platform", "build", "name", "user", "accessKey",
   "network", "video", "console", "tunnel", "tunnelName",
   "geoLocation", "resolution", "playwrightClientVersion",
   "platformName", "deviceName", "platformVersion",
   "isRealMobile", "isPwMobileWebviewTest"]

/-- Python's `v in <set of strings>` as the operator actually behaves:
true exactly for a member string, false for any other *hashable* value
(bool, number, `None`), and `TypeError: unhashable type` for a dict (a
JSON array — absent from `JVal` — would raise identically). -/
def pyInStrSet (v : JVal) (set : List String) : Except PyErr Bool :=
  match v with
  | .str s => .ok (set.contains s)
  | .obj _ => .error .typeError
  | _ => .ok false

/-- Membership of a *hashable* JSON value in a set of strings: the value
of `pyInStrSet` wherever the latter does not raise.  Used only in theorem
statements whose hypotheses rule the unhashable case out (see
`browserCheck_typed`). -/
def jvalInStrSet (v : JVal) (set : List String) : Bool :=
  match v with
  | .str s => set.contains s
  | _ => false

def msgMissingBrowser : String :=
  "Missing 'browserName'. Valid: " ++ pyJoin ", " (pySortStrs validBrowsers)

def msgInvalidBrowser (b : JVal) : String :=
  "Invalid browserName '" ++ pyStr b ++ "'. Valid: " ++ pyJoin ", " (pySortStrs validBrowsers)

def msgMissingLT : String := "Missing 'LT:Options' object"

def msgUnknownKeys (keys : List String) : String :=
  "Unknown LT:Options keys (may be ignored): " ++ pyJoin ", " keys

def msgMissingUser : String := "Missing LT:Options.user — set LT_USERNAME env var"

def msgMissingAccessKey : String := "Missing LT:Options.accessKey — set LT_ACCESS_KEY env var"

def msgMissingDeviceName : String :=
  "Mobile test requires 'deviceName' (e.g., 'Pixel 7', 'iPhone 16')"

def msgMissingPlatformVersion : String :=
  "Mobile test requires 'platformVersion' (e.g., '14', '18')"

def msgRealMobile : String :=
  "isRealMobile not set — add isRealMobile: true for real device testing"

def msgIosMismatch (b : JVal) : String :=
  "iOS MUST use webkit/pw-webkit browser, not '" ++ pyStr b ++ "'"

def msgDesktopPlatform : String :=
  "Desktop test requires LT:Options.platform (e.g., 'Windows 11')"

def msgInvalidPlatform (p : JVal) : String :=
  "Invalid platform '" ++ pyStr p ++ "'. Valid: " ++ pyJoin ", " (pySortStrs validPlatforms)

def msgBuild : String := "Consider adding 'build' to group tests in dashboard"

def msgVideo : String := "Consider adding 'video: true' for debugging"

def msgNetwork : String := "Consider adding 'network: true' for network logs"

/-- The `browserName` rule (source lines 39–43): `browser` is
`caps.get("browserName")`.  The membership test `browser not in
VALID_BROWSERS` is only reached for a truthy value and raises `TypeError`
on a truthy dict. -/
def browserCheck (browser : Option JVal) : Except PyErr (List String) :=
  match browser with
  | none => .ok [msgMissingBrowser]
  | some b =>
    if !truthy b then .ok [msgMissingBrowser]
    else
      match pyInStrSet b validBrowsers with
      | .error e => .error e
      | .ok isMem => .ok (if isMem then [] else [msgInvalidBrowser b])

/-- The findings of the `browserName` rule for an input on which it does
not raise (absent browser, or a hashable value): the pure view of
`browserCheck`, used in theorem statements whose hypotheses guarantee
agreement (`browserCheck_typed`). -/
def browserErrors (browser : Option JVal) : List String :=
  match browser with
  | none => [msgMissingBrowser]
  | some b =>
    if !truthy b then [msgMissingBrowser]
    else if jvalInStrSet b validBrowsers then [] else [msgInvalidBrowser b]

/-- The distinct unknown option keys, in insertion order
(`set(lt.keys()) - VALID_LT_OPTIONS` as a set of strings; the *order* in
which Python iterates this set is a separate, run-dependent enumeration —
see `ValidEnum`). -/
def unknownKeys (fields : JObj) : List String :=
  ((fields.map Prod.fst).eraseDups).filter (fun k => !validLTOptions.contains k)

/-- The auth rules (source lines 57–62). -/
def authErrors (fields : JObj) : List String :=
  (let user := (dget fields "user").getD (.str "")
   if !truthy user || isStrEq user "None" then [msgMissingUser] else []) ++
  (let key := (dget fields "accessKey").getD (.str "")
   if !truthy key || isStrEq key "None" then [msgMissingAccessKey] else [])

/-- The `deviceName` and `platformVersion` mobile rules (source lines 68–71). -/
def mobileFieldErrors (fields : JObj) : List String :=
  (if truthyO (dget fields "deviceName") then [] else [msgMissingDeviceName]) ++
  (if truthyO (dget fields "platformVersion") then [] else [msgMissingPlatformVersion])

/-- The `isRealMobile` warning (source lines 72–73). -/
def realMobileWarnings (fields : JObj) : List String :=
  if truthyO (dget fields "isRealMobile") then [] else [msgRealMobile]

/-- The iOS browser rule (source lines 74–75); `browser.lower()` raises on
a truthy non-string browser value (short-circuit: it is only reached when
`platform_name == "ios"` and `browser` is truthy). -/
def iosCheck (pname : String) (browser : Option JVal) : Except PyErr (List String) :=
  if pname = "ios" then
    match browser with
    | none => .ok []
    | some b =>
      if truthy b then
        match pyLowerJ b with
        | .error e => .error e
        | .ok bl =>
          .ok (if bl = "pw-webkit" ∨ bl = "webkit" then [] else [msgIosMismatch b])
      else .ok []
  else .ok []

/-- The desktop platform rules (source lines 77–82); like the browser
rule, the membership test `platform not in VALID_PLATFORMS` is only
reached for a truthy value and raises `TypeError` on a truthy dict. -/
def desktopErrors (fields : JObj) : Except PyErr (List String) :=
  match dget fields "platform" with
  | none => .ok [msgDesktopPlatform]
  | some p =>
    if !truthy p then .ok [msgDesktopPlatform]
    else
      match pyInStrSet p validPlatforms with
      | .error e => .error e
      | .ok isMem => .ok (if isMem then [] else [msgInvalidPlatform p])

/-- The recommendation warnings (source lines 85–90). -/
def recWarnings (fields : JObj) : List String :=
  (if truthyO (dget fields "build") then [] else [msgBuild]) ++
  (if truthyO (dget fields "video") then [] else [msgVideo]) ++
  (if truthyO (dget fields "network") then [] else [msgNetwork])

/-- Everything `validate` does after the `LT:Options` early return
(source lines 51–96), given `u`, the enumeration of the unknown-key set
that `', '.join(unknown)` iterates.  Result: `(errors, warnings)`. -/
def validateLT (u : List String) (browser : Option JVal) (fields : JObj) :
    Except PyErr (List String × List String) :=
  let wU := if unknownKeys fields = [] then [] else [msgUnknownKeys u]
  let eAuth := authErrors fields
  match pyLowerJ ((dget fields "platformName").getD (.str "")) with
  | .error e => .error e
  | .ok pname =>
    if pname ∈ validMobilePlatforms then
      match iosCheck pname browser with
      | .error e => .error e
      | .ok eIos =>
        .ok (eAuth ++ mobileFieldErrors fields ++ eIos,
             wU ++ realMobileWarnings fields ++ recWarnings fields)
    else
      match desktopErrors fields with
      | .error e => .error e
      | .ok eDesk => .ok (eAuth ++ eDesk, wU ++ recWarnings fields)

/-- `validate(caps)` (source lines 34–96).  `enum` is the run-dependent
order in which Python enumerates the unknown-key *set* when joining it
into the warning text (any permutation of `unknownKeys`, see `ValidEnum`).
Returns the error list `validate` returns paired with the warning list it
prints; a raised `TypeError` or `AttributeError` is `Except.error`
(nothing is printed then, because `validate` prints warnings only after
all rules ran).  The browser rule runs first, so its `TypeError` on a
truthy dict-valued browser aborts evaluation before the `LT:Options`
check. -/
def validateCaps (enum : List String → List String) (caps : JObj) :
    Except PyErr (List String × List String) :=
  match browserCheck (dget caps "browserName") with
  | .error e => .error e
  | .ok bErrs =>
    let lt := (dget caps "LT:Options").getD (JVal.obj [])
    if truthy lt then
      match lt with
      | JVal.obj fields =>
        match validateLT (enum (unknownKeys fields)) (dget caps "browserName") fields with
        | .error e => .error e
        | .ok (es, ws) => .ok (bErrs ++ es, ws)
      | _ => .error PyErr.attributeError
    else
      .ok (bErrs ++ [msgMissingLT], [])

/-- A legitimate enumeration of a finite set represented by a duplicate-free
list: any permutation.  Python's set iteration order (with hash
randomisation) is some such permutation, fixed per process run. -/
def ValidEnum (enum : List String → List String) : Prop :=
  ∀ l : List String, List.Perm (enum l) l

/-- How the capability validator's `main` obtains its document
(source lines 100–113): the argument may be missing, loading may fail with
`FileNotFoundError`, `json.JSONDecodeError` or `IndexError` (a bare
`--inline`), or it yields a parsed object. -/
inductive CapsLoadErr where
  | fileNotFound
  | jsonParseError
  | missingInlineArg

/-- The capability validator's input after CLI/loading. -/
inductive CapsInput where
  | missingArg
  | loadFail (e : CapsLoadErr)
  | parsed (caps : JObj)

/-- `main()` of `validate-capabilities.py`: `(exit code, printed error
findings, printed warning findings)`.  Load faults exit 2 before `validate`
is called; an `AttributeError` escaping `validate` aborts the interpreter
(exit status 1) with no findings printed. -/
def capsMain (enum : List String → List String) : CapsInput → Nat × List String × List String
  | .missingArg => (2, [], [])
  | .loadFail _ => (2, [], [])
  | .parsed caps =>
    match validateCaps enum caps with
    | .error _ => (1, [], [])
    | .ok (es, ws) => (if es.isEmpty then 0 else 1, es, ws)

/-! ### Configuration-file validator (`playwright-automation-skill/scripts/validate-config.py`) -/

/-- Attempt to match the regex `name:\s*['"]([^'"]*@lambdatest)['"]` at the
head of `l`.  On success, returns the captured group and the characters
after the whole match.  The capture is the maximal quote-free run after the
opening quote; the regex matches exactly when that run ends in
`@lambdatest` and is followed by a quote (the capture class `[^'"]`
excludes both quote characters, so no other backtracking split exists). -/
def tryMatchCloud (l : List Char) : Option (String × List Char) :=
  if "name:".data.isPrefixOf l then
    let afterWs := (l.drop 5).dropWhile isPySpace
    match afterWs with
    | q :: r1 =>
      if q = squote ∨ q = dquote then
        let run := r1.takeWhile (fun c => !(c == squote || c == dquote))
        match r1.drop run.length with
        | q2 :: r3 =>
          if (q2 = squote ∨ q2 = dquote) ∧ "@lambdatest".data.isSuffixOf run then
            some (⟨run⟩, r3)
          else none
        | [] => none
      else none
    | [] => none
  else none

/-- Scanning loop of `re.findall`: try each start position left to right;
after a match, resume after its end (non-overlapping matches).  `fuel`
starts at `l.length + 1` and bounds the recursion (each step consumes at
least one character). -/
def findCloudAux : Nat → List Char → List String
  | 0, _ => []
  | fuel + 1, l =>
    match l with
    | [] => []
    | _ :: rest =>
      match tryMatchCloud l with
      | some (proj, remaining) => proj :: findCloudAux fuel remaining
      | none => findCloudAux fuel rest

/-- `re.findall(r"name:\s*['\"]([^'\"]*@lambdatest)['\"]", content)`
(source line 44). -/
def cloudProjects (content : String) : List String :=
  findCloudAux (content.data.length + 1) content.data

/-- `proj.split("@lambdatest")[0].split(":")` (source line 46). -/
def cloudProjectParts (proj : String) : List String :=
  pySplit ((pySplit proj "@lambdatest").headD "") ":"

/-- The message for a malformed cloud project name (source lines 48–51;
the two adjacent f-string literals concatenate). -/
def cloudMsg (proj : String) : String :=
  "Cloud project '" ++ proj ++
    "' should follow format 'browserName:version:platform@lambdatest'. Got " ++
    toString (cloudProjectParts proj).length ++ " parts, expected 3"

/-- The per-match cloud-project rule (source lines 45–51): one error when
the colon-split prefix has fewer than 3 parts, nothing otherwise. -/
def cloudFinding (proj : String) : Option String :=
  if (cloudProjectParts proj).length < 3 then some (cloudMsg proj) else none

/-- `validate(content)` of `validate-config.py` (source lines 15–74):
`(errors, warnings)` in emission order. -/
def validateConfig (content : String) : List String × List String :=
  ((if pyContains content "waitForTimeout" then
      ["Found 'waitForTimeout' in config — this is an anti-pattern. Use web-first assertions"]
    else []) ++
   (cloudProjects content).filterMap cloudFinding,
   (if pyContains content "defineConfig" then []
    else ["Not using defineConfig() — consider wrapping config for type safety"]) ++
   (if pyContains content "testDir" then []
    else ["No testDir specified — defaults to '.' which runs all .spec files"]) ++
   (if pyContains content "timeout" then []
    else ["No timeout configured — defaults to 30s"]) ++
   (if pyContains content "retries" then []
    else ["No retries configured — consider retries: process.env.CI ? 2 : 0"]) ++
   (if pyContains content "projects" then []
    else ["No projects defined — tests will only run on default browser"]) ++
   (if pyContains content "trace" then []
    else ["No trace configured — consider trace: 'on-first-retry' for debugging"]) ++
   (if pyContains content "reporter" then []
    else ["No reporter configured — consider [['html'], ['list']]"]) ++
   (if pyContains content "baseURL" then []
    else ["No baseURL — tests will need full URLs in page.goto()"]) ++
   (if pyContains content "webServer" then []
    else ["No webServer — app must be running before tests start"]) ++
   (if pyContains content "@lambdatest" &&
       !(pyContains content "LT_USERNAME" || pyContains content "lambdatest-setup") then
      ["Cloud projects found but LT_USERNAME not referenced in config. Ensure lambdatest-setup.ts handles auth"]
    else []))

/-- The configuration validator's input after loading. -/
inductive ConfigInput where
  | fileNotFound
  | loaded (content : String)

/-- `main()` of `validate-config.py` (source lines 77–101): `(exit code,
printed errors, printed warnings)`. -/
def configMain : ConfigInput → Nat × List String × List String
  | .fileNotFound => (2, [], [])
  | .loaded content =>
    (if (validateConfig content).1.isEmpty then 0 else 1,
     (validateConfig content).1, (validateConfig content).2)

/-! ### Skill-directory validator (`scripts/validate_skills.py`)

The repository tree one level below the root is modelled as a list of
`Item`s: `name` is the directory entry's name, `isDir` whether it is a
directory, `hasSkillMd` whether `<name>/SKILL.md` exists, `skillContent`
that file's text (meaningful when it exists), `hasRefDir` whether
`<name>/reference/` is a directory and `hasPlaybook` whether
`<name>/reference/playbook.md` exists. -/

structure Item where
  name : String
  isDir : Bool
  hasSkillMd : Bool
  skillContent : String
  hasRefDir : Bool
  hasPlaybook : Bool

/-- The global accumulators `errors`, `warnings`, `skills_found`. -/
structure ScanState where
  errors : List String
  warnings : List String
  skillsFound : Nat

/-- `errors.append(m)`. -/
def addErr (st : ScanState) (m : String) : ScanState :=
  ScanState.mk (st.errors ++ [m]) st.warnings st.skillsFound

/-- `warnings.append(m)`. -/
def addWarn (st : ScanState) (m : String) : ScanState :=
  ScanState.mk st.errors (st.warnings ++ [m]) st.skillsFound

/-- `SKIP_DIRS`. -/
def skipDirs : List String := ["evals", "shared", ".git", "scripts", "docs", "__pycache__"]

/-- `MAX_SKILL_LINES`. -/
def maxSkillLines : Nat := 500

/-- `VALID_CATEGORIES`. -/
def validCategories : List String :=
  ["accessibility", "api-testing", "bdd-testing", "cloud-testing",
   "devops", "e2e-testing", "mobile-testing", "performance-testing",
   "security-testing", "unit-testing", "visual-testing"]

/-- `re.search(r"^<key>", fm, re.MULTILINE)` for a literal key containing
no newline: some line of `fm` starts with the key. -/
def mlHasKeyLine (fm key : String) : Bool :=
  (pySplit fm "\n").any (fun ln => strStartsWith ln key)

/-- Matching `\s*(.+)` (Python semantics: `\s` may cross newlines, `.` may
not, both quantifiers greedy with backtracking) against `r`, the text
following a `category:` key.  The engine takes the maximal whitespace run;
if a character follows it, the capture runs from there to the end of that
line; otherwise it backtracks to the last non-newline whitespace character,
which becomes a one-character capture (everything after it is `\n`). -/
def matchCatValue (r : List Char) : Option String :=
  let w := r.takeWhile isPySpace
  match r.drop w.length with
  | c :: rest => some ⟨c :: rest.takeWhile (fun ch => !(ch == '\n'))⟩
  | [] =>
    match w.reverse.dropWhile (fun ch => ch == '\n') with
    | [] => none
    | c :: _ => some ⟨[c]⟩

/-- `re.search(r"^category:\s*(.+)", fm, re.MULTILINE)`: scan the match
start positions left to right; `^` holds at position 0 and after each
newline; on a failed value match the scan continues at later positions. -/
def searchCategoryAux : List Char → Bool → Option String
  | [], _ => none
  | c :: rest, atLineStart =>
    if atLineStart && "category:".data.isPrefixOf (c :: rest) then
      match matchCatValue ((c :: rest).drop 9) with
      | some cap => some cap
      | none => searchCategoryAux rest (c == '\n')
    else searchCategoryAux rest (c == '\n')

/-- The capture of `re.search(r"^category:\s*(.+)", fm, re.MULTILINE)`. -/
def searchCategoryValue (fm : String) : Option String :=
  searchCategoryAux fm.data true

/-- `validate_frontmatter(skill_dir, content)` (source lines 24–52):
the updated accumulators and the function's boolean result (which the
caller ignores). -/
def validateFrontmatter (skillDir content : String) (st : ScanState) : ScanState × Bool :=
  if !strStartsWith content "---\n" then
    (addErr st (skillDir ++ ": Missing opening --- in frontmatter"), false)
  else
    match (pyFindFrom content "\n---\n" 3).orElse (fun _ => pyFindFrom content "\n---" 3) with
    | none => (addErr st (skillDir ++ ": Missing closing --- in frontmatter"), false)
    | some fmEnd =>
      let fm := pySlice content 4 fmEnd
      let st := if mlHasKeyLine fm "name:" then st
        else addErr st (skillDir ++ ": Missing 'name' in frontmatter")
      let st := if mlHasKeyLine fm "description:" then st
        else addErr st (skillDir ++ ": Missing 'description' in frontmatter")
      let st := if mlHasKeyLine fm "languages:" then st
        else addWarn st (skillDir ++ ": Missing 'languages' in frontmatter")
      let st :=
        if !mlHasKeyLine fm "category:" then
          addWarn st (skillDir ++ ": Missing 'category' in frontmatter")
        else
          match searchCategoryValue fm with
          | none => st
          | some cap =>
            if validCategories.contains (pyStrip cap) then st
            else addWarn st (skillDir ++ ": Unknown category '" ++ pyStrip cap ++ "'")
      (st, true)

/-- `validate_skill(skill_dir)` (source lines 55–89). -/
def validateSkill (st : ScanState) (it : Item) : ScanState :=
  if !it.hasSkillMd then
    addErr st (it.name ++ ": Missing SKILL.md")
  else
    let content := it.skillContent
    let st := ScanState.mk st.errors st.warnings (st.skillsFound + 1)
    let st :=
      if (pySplit content "\n").length > maxSkillLines then
        addErr st (it.name ++ ": SKILL.md is " ++ toString (pySplit content "\n").length ++
          " lines (max " ++ toString maxSkillLines ++ ")")
      else st
    let st := (validateFrontmatter it.name content st).1
    let st :=
      if !it.hasRefDir then addWarn st (it.name ++ ": No reference/ directory")
      else if !it.hasPlaybook then addWarn st (it.name ++ ": No reference/playbook.md")
      else st
    if !(pyContains content "reference/") && !(pyContains content "playbook.md") then
      addWarn st (it.name ++ ": SKILL.md doesn't reference playbook.md")
    else st

/-- One iteration of `main`'s loop (source lines 97–101): a directory that
is not skipped, not dot-prefixed *and contains `SKILL.md`* is validated;
everything else is passed over silently. -/
def scanStep (st : ScanState) (it : Item) : ScanState :=
  if it.isDir && !skipDirs.contains it.name && !strStartsWith it.name "." then
    (if it.hasSkillMd then validateSkill st it else st)
  else st

/-- Is the item a directory `main` both validates and counts (non-skipped,
non-dot, with a manifest)? -/
def countedSkill (it : Item) : Bool :=
  it.isDir && !skipDirs.contains it.name && !strStartsWith it.name "." && it.hasSkillMd

/-- Stable insertion by name, used for `sorted(os.listdir(...))`. -/
def insertItem (x : Item) : List Item → List Item
  | [] => [x]
  | y :: ys => if decide (y.name < x.name) then y :: insertItem x ys else x :: y :: ys

/-- `sorted(os.listdir(REPO_ROOT))` applied to the directory entries. -/
def pySortItems (l : List Item) : List Item := l.foldr insertItem []

/-- The whole scan of `main` (source lines 97–101) over the repository
root's entries, starting from empty accumulators. -/
def runSkillsScan (items : List Item) : ScanState :=
  (pySortItems items).foldl scanStep (ScanState.mk [] [] 0)

/-- `main()` of `validate_skills.py`: `(exit code, errors, warnings)`
(source lines 104–123: exit status 1 exactly when `errors` is non-empty). -/
def skillsMain (items : List Item) : Nat × List String × List String :=
  (if (runSkillsScan items).errors.isEmpty then 0 else 1,
   (runSkillsScan items).errors, (runSkillsScan items).warnings)

/-! ### Views and statements of the claims under scrutiny -/

/-- The error findings of a capability-validator run, `none` when the run
raised. -/
def okErrors : Except PyErr (List String × List String) → Option (List String)
  | .ok (es, _) => some es
  | .error _ => none

/-- The error findings of `validate` as a function of the enumeration order. -/
def capsErrors (enum : List String → List String) (caps : JObj) : Option (List String) :=
  okErrors (validateCaps enum caps)

/-- The unknown-key set of the descriptor's options object (empty when the
options value is absent or not an object). -/
def unknownKeysOf (caps : JObj) : List String :=
  match (dget caps "LT:Options").getD (JVal.obj []) with
  | JVal.obj fields => unknownKeys fields
  | _ => []

/-- The iOS browser-mismatch findings for a typed (absent-or-string)
browser value, as a pure function: fires exactly when the lower-cased
platform is `ios`, the browser name is present and non-empty, and its
lower-casing is neither webkit spelling. -/
def iosFindings (pname : String) (browser : Option JVal) : List String :=
  if pname = "ios" then
    match browser with
    | some (JVal.str b) =>
      if b ≠ "" ∧ ¬(pyLower b = "pw-webkit" ∨ pyLower b = "webkit") then
        [msgIosMismatch (JVal.str b)]
      else []
    | _ => []
  else []

/-- Claim C2 as stated: every scanned (non-skipped, non-dot) subdirectory
without a `SKILL.md` manifest gets exactly one error finding. -/
def ClaimC2 : Prop :=
  ∀ (items : List Item) (it : Item), it ∈ items →
    it.isDir = true →
    skipDirs.contains it.name = false →
    strStartsWith it.name "." = false →
    it.hasSkillMd = false →
    ((runSkillsScan items).errors.countP
      (fun m => strStartsWith m (it.name ++ ":"))) = 1

/-- Claim C3 as stated: each regex-matched cloud project name yields
exactly one error naming it when its colon prefix does not have exactly 3
parts, and no finding when it has exactly 3 parts. -/
def ClaimC3 : Prop :=
  ∀ (content proj : String), proj ∈ cloudProjects content →
    ((validateConfig content).1.countP (fun m => pyContains m proj)) =
      (if (cloudProjectParts proj).length = 3 then 0 else 1)

/-- Claim C4 as stated: the findings are a function of the document alone —
any two runs (any two legitimate set-enumeration orders) produce identical
output on every descriptor. -/
def ClaimC4 : Prop :=
  ∀ e₁ e₂ : List String → List String, ValidEnum e₁ → ValidEnum e₂ →
    ∀ caps : JObj, validateCaps e₁ caps = validateCaps e₂ caps

/-- The descriptor of claim C6. -/
def caps6 : JObj :=
  [("browserName", .str "pw-webkit"),
   ("LT:Options", .obj [("platformName", .str "ios"), ("user", .str "u"),
     ("accessKey", .str "k"), ("deviceName", .str "iPhone 16"),
     ("platformVersion", .str "18")])]

/-- The descriptor of claim C7. -/
def caps7 : JObj :=
  [("browserName", .str "Chrome"),
   ("LT:Options", .obj [("platformName", .str "ios"), ("user", .str "u"),
     ("accessKey", .str "k")])]

/-- The descriptor `{"LT:Options": {"platformName": null}}`: parsing
succeeds, so `main` reaches `validate`, which calls `None.lower()`. -/
def c1bad : JObj := [("LT:Options", .obj [("platformName", JVal.null)])]

/-- A descriptor whose options object has two unknown keys (`zzz`, `aaa`)
and otherwise passes the desktop rules. -/
def c4caps : JObj :=
  [("LT:Options", .obj [("zzz", .str "1"), ("aaa", .str "2"), ("user", .str "u"),
    ("accessKey", .str "k"), ("platform", .str "Windows 11"), ("build", .str "b"),
    ("video", .bool true), ("network", .bool true)])]

/-- A descriptor with exactly one unknown option key. -/
def capsOneUnknown : JObj :=
  [("browserName", .str "Chrome"),
   ("LT:Options", .obj [("weird", .str "1"), ("user", .str "u"),
     ("accessKey", .str "k"), ("platform", .str "Windows 11")])]

/-- A descriptor with an invalid browser name and no `LT:Options` key. -/
def capsNoLT : JObj := [("browserName", JVal.str "Opera")]

/-- A descriptor whose `LT:Options` key is present but bound to `{}`. -/
def capsFalsyLT : JObj :=
  [("browserName", JVal.str "Chrome"), ("LT:Options", JVal.obj [])]

/-- `{"browserName": {"a": 1}}`: a truthy, unhashable (dict-valued)
browser name and no `LT:Options` key. -/
def capsC5bad : JObj := [("browserName", JVal.obj [("a", JVal.num 1)])]

/-- `{"browserName": {"a": 1}, "LT:Options": {}}`: a truthy, unhashable
browser name and a falsy `LT:Options` value. -/
def capsC9bad : JObj :=
  [("browserName", JVal.obj [("a", JVal.num 1)]), ("LT:Options", JVal.obj [])]

/-- Claim C5 as stated: on *every* descriptor whose `LT:Options` key is
absent, the validator completes and emits the missing-options error
finding. -/
def ClaimC5 : Prop :=
  ∀ (enum : List String → List String) (caps : JObj),
    dget caps "LT:Options" = none →
    ∃ es ws, validateCaps enum caps = .ok (es, ws) ∧ msgMissingLT ∈ es

/-- Claim C9 as stated: on *every* descriptor whose `LT:Options` key is
present but falsy, the run behaves exactly as if the key were absent and
the validator completes, emitting the missing-options error finding. -/
def ClaimC9 : Prop :=
  ∀ (enum : List String → List String) (caps : JObj) (v : JVal),
    dget caps "LT:Options" = some v → truthy v = false →
    validateCaps enum caps = validateCaps enum (removeKey caps "LT:Options") ∧
    ∃ es ws, validateCaps enum caps = .ok (es, ws) ∧ msgMissingLT ∈ es

/-- Option fields of the claim-C10 witness descriptor: mixed-case mobile
platform name. -/
def fieldsMobileW : JObj :=
  [("platformName", .str "iOS"), ("user", .str "u"), ("accessKey", .str "k"),
   ("deviceName", .str "Pixel 7"), ("platformVersion", .str "14")]

/-- The claim-C10 witness descriptor. -/
def capsMobileW : JObj :=
  [("browserName", .str "Chrome"), ("LT:Options", .obj fieldsMobileW)]

/-- A repository entry: an eligible directory without a `SKILL.md`. -/
def noManifestItem : Item := Item.mk "alpha" true false "" false false

/-- A configuration file declaring one cloud project whose name has four
colon-delimited parts before the suffix. -/
def c3content : String := "name: \"a:b:c:d@lambdatest\""

/-! ### Helper lemmas -/

/-- The exit-code mapping all three `main`s use: `0` exactly on an empty
error list, `1` exactly on a non-empty one. -/
theorem exit_flag_spec (es : List String) :
    ((if es.isEmpty then (0 : Nat) else 1) = 0 ↔ es = []) ∧
    ((if es.isEmpty then (0 : Nat) else 1) = 1 ↔ es ≠ []) := by
  cases es <;> simp

/-- A chunk occurs as a substring of any list that embeds it contiguously. -/
theorem subOccurs_append_middle (pre x suf : List Char) :
    subOccurs x (pre ++ (x ++ suf)) = true := by
  induction pre with
  | nil =>
    cases x with
    | nil => cases suf <;> simp [subOccurs]
    | cons c r =>
      show subOccurs (c :: r) ((c :: r) ++ suf) = true
      rw [List.cons_append]
      show (List.isPrefixOf (c :: r) (c :: (r ++ suf)) || _) = true
      rw [List.isPrefixOf_iff_prefix.mpr (by rw [← List.cons_append]; exact List.prefix_append _ _)]
      rfl
  | cons c p ih =>
    show (List.isPrefixOf x (c :: (p ++ (x ++ suf))) || subOccurs x (p ++ (x ++ suf))) = true
    rw [ih, Bool.or_true]

/-- Every malformed-cloud-project message contains the offending project
name. -/
theorem pyContains_cloudMsg (proj : String) : pyContains (cloudMsg proj) proj = true := by
  unfold pyContains cloudMsg
  rw [String.data_append, String.data_append, String.data_append, String.data_append,
    List.append_assoc, List.append_assoc, List.append_assoc]
  exact subOccurs_append_middle _ _ _

/-! ### Claim theorems -/

/-- `validate_frontmatter` never touches `skills_found`. -/
theorem validateFrontmatter_skillsFound (d c : String) (st : ScanState) :
    ((validateFrontmatter d c st).1).skillsFound = st.skillsFound := by
  unfold validateFrontmatter
  dsimp only
  repeat' split
  all_goals rfl

/-- `validate_skill` increments `skills_found` exactly when the manifest
exists (and only then reaches the remaining rules). -/
theorem validateSkill_skillsFound (st : ScanState) (it : Item) :
    (validateSkill st it).skillsFound =
      (if it.hasSkillMd then st.skillsFound + 1 else st.skillsFound) := by
  unfold validateSkill
  cases hm : it.hasSkillMd with
  | false => simp [hm, addErr]
  | true =>
    simp only [hm, Bool.not_true, Bool.false_eq_true, if_false, if_true]
    repeat' split
    all_goals simp [addErr, addWarn, validateFrontmatter_skillsFound]

/-- One loop iteration of `main` adds `1` to `skills_found` exactly for a
counted (eligible, manifest-bearing) directory. -/
theorem scanStep_skillsFound (st : ScanState) (it : Item) :
    (scanStep st it).skillsFound =
      st.skillsFound + (if countedSkill it then 1 else 0) := by
  unfold scanStep countedSkill
  cases h1 : (it.isDir && !skipDirs.contains it.name && !strStartsWith it.name ".") with
  | false => simp [h1]
  | true =>
    cases hm : it.hasSkillMd with
    | false => simp [h1, hm]
    | true => simp [h1, hm, validateSkill_skillsFound]

/-- Folding the scan over any item list counts exactly the counted
directories. -/
theorem foldl_scanStep_skillsFound (l : List Item) :
    ∀ st : ScanState,
      (l.foldl scanStep st).skillsFound = st.skillsFound + l.countP countedSkill := by
  induction l with
  | nil => intro st; simp
  | cons it r ih =>
    intro st
    rw [List.foldl_cons, ih (scanStep st it), scanStep_skillsFound, List.countP_cons]
    omega

/-- Stable insertion preserves `countP`. -/
theorem countP_insertItem (p : Item → Bool) (x : Item) (l : List Item) :
    (insertItem x l).countP p = (if p x then 1 else 0) + l.countP p := by
  induction l with
  | nil => cases hp : p x <;> simp [insertItem, List.countP_cons, hp]
  | cons y ys ih =>
    unfold insertItem
    split
    · rw [List.countP_cons, ih, List.countP_cons]
      omega
    · rw [List.countP_cons, List.countP_cons]
      omega

/-- Sorting the directory listing preserves `countP`. -/
theorem countP_pySortItems (p : Item → Bool) (l : List Item) :
    (pySortItems l).countP p = l.countP p := by
  induction l with
  | nil => rfl
  | cons x r ih =>
    show (insertItem x (pySortItems r)).countP p = _
    rw [countP_insertItem, ih, List.countP_cons]
    omega

/-- Removing a key makes lookup of that key fail. -/
theorem dget_removeKey_self (d : JObj) (k : String) : dget (removeKey d k) k = none := by
  induction d with
  | nil => rfl
  | cons kv r ih =>
    obtain ⟨k2, v⟩ := kv
    simp only [removeKey] at ih ⊢
    rw [List.filter_cons]
    cases hk : (k2 == k) with
    | true => simpa [hk] using ih
    | false => simpa [dget, hk] using ih

/-- Removing one key leaves the lookup of every other key unchanged. -/
theorem dget_removeKey_ne (d : JObj) (k k2 : String) (h : (k2 == k) = false) :
    dget (removeKey d k) k2 = dget d k2 := by
  induction d with
  | nil => rfl
  | cons kv r ih =>
    obtain ⟨k3, v⟩ := kv
    simp only [removeKey] at ih ⊢
    rw [List.filter_cons]
    cases hk : (k3 == k) with
    | true =>
      have e1 : k3 = k := by simpa using hk
      subst e1
      have h23 : (k3 == k2) = false := by
        cases hc : (k3 == k2) with
        | false => rfl
        | true =>
          have e2 : k3 = k2 := by simpa using hc
          subst e2
          simp at h
      simp [dget, hk, h23, ih]
    | false =>
      simp only [Prod.fst, Bool.not_false, if_true]
      cases h3 : (k3 == k2) <;> simp [dget, h3, ih]

/-- Claim C2 (as stated) is false: the eligible directory `alpha` (a
non-skipped, non-dot directory) has no `SKILL.md`, yet the scan produces
*zero* findings for it — `main` only invokes `validate_skill` on
directories whose manifest exists, so the missing-manifest error never
fires. -/
theorem missingManifestNoFinding : ¬ ClaimC2 := by
  intro h
  have h2 := h [noManifestItem] noManifestItem (List.mem_singleton.mpr rfl) rfl rfl rfl rfl
  exact absurd h2 (by decide)

/-- Claim C2 amended: a directory without a manifest is skipped by the scan
entirely — its scan step is the identity, so no finding is produced for it
(first conjunct); `skills_found` counts exactly the eligible directories
whose manifest exists (second conjunct); and `validate_skill` itself, if
invoked on a manifest-less directory, appends exactly the one
missing-manifest error and evaluates no further rule (third conjunct). -/
theorem skillsScanSkipsManifestless (items : List Item) (st : ScanState) (it : Item) :
    (it.hasSkillMd = false → scanStep st it = st) ∧
    (runSkillsScan items).skillsFound = items.countP countedSkill ∧
    (it.hasSkillMd = false →
      validateSkill st it = addErr st (it.name ++ ": Missing SKILL.md")) := by
  refine ⟨fun h => ?_, ?_, fun h => ?_⟩
  · simp [scanStep, h]
  · unfold runSkillsScan
    rw [foldl_scanStep_skillsFound, countP_pySortItems]
    simp
  · simp [validateSkill, h]

/-- Witness for the amended claim C2 at the concrete directory `alpha`. -/
theorem skillsScanSkipsManifestlessWitness :
    scanStep (ScanState.mk [] [] 0) noManifestItem = ScanState.mk [] [] 0 ∧
    validateSkill (ScanState.mk [] [] 0) noManifestItem =
      addErr (ScanState.mk [] [] 0) (noManifestItem.name ++ ": Missing SKILL.md") :=
  ⟨(skillsScanSkipsManifestless [] (ScanState.mk [] [] 0) noManifestItem).1 rfl,
   (skillsScanSkipsManifestless [] (ScanState.mk [] [] 0) noManifestItem).2.2 rfl⟩

/-- Claim C5 (as stated) is false: on `{"browserName": {"a": 1}}` (no
`LT:Options` key) the browser rule's membership test raises `TypeError`
on the truthy, unhashable dict value, so the process aborts before the
`LT:Options` check and the missing-options error is never emitted. -/
theorem missingOptionsClaimRefuted : ¬ ClaimC5 := by
  intro h
  obtain ⟨es, ws, he, -⟩ := h (fun l => l) capsC5bad rfl
  rw [show validateCaps (fun l => l) capsC5bad = Except.error PyErr.typeError
    from rfl] at he
  exact Except.noConfusion he

/-- Claim C5 amended: on every descriptor whose `LT:Options` key is absent
and whose browser-name rule completes without raising (browser absent or
any hashable value — not an object), the validator emits exactly that
rule's findings followed by the missing-options error, with no warnings,
and evaluates no further rule.  (A truthy object-valued `browserName`
instead aborts the run with `TypeError` before the `LT:Options` check,
producing no findings — see the counterexample.) -/
theorem missingOptionsEarlyReturn (enum : List String → List String) (caps : JObj)
    (bErrs : List String) (h : dget caps "LT:Options" = none)
    (hbr : browserCheck (dget caps "browserName") = .ok bErrs) :
    validateCaps enum caps = .ok (bErrs ++ [msgMissingLT], []) := by
  unfold validateCaps
  rw [hbr]
  dsimp only
  rw [h]
  rfl

/-- Witness for the amended claim C5: `{"browserName": "Opera"}` (no
`LT:Options`) yields the invalid-browser finding followed by the
missing-options error. -/
theorem missingOptionsEarlyReturnWitness :
    validateCaps (fun l => l) capsNoLT =
      .ok ([msgInvalidBrowser (JVal.str "Opera")] ++ [msgMissingLT], []) :=
  missingOptionsEarlyReturn (fun l => l) capsNoLT
    [msgInvalidBrowser (JVal.str "Opera")] rfl rfl

/-- Claim C9 (as stated) is false: on `{"browserName": {"a": 1},
"LT:Options": {}}` the browser rule raises `TypeError` at the membership
test on the truthy, unhashable dict value, so the run aborts and the
missing-options error is never emitted. -/
theorem falsyOptionsClaimRefuted : ¬ ClaimC9 := by
  intro h
  obtain ⟨-, es, ws, he, -⟩ := h (fun l => l) capsC9bad (JVal.obj []) rfl rfl
  rw [show validateCaps (fun l => l) capsC9bad = Except.error PyErr.typeError
    from rfl] at he
  exact Except.noConfusion he

/-- Claim C9 amended: a descriptor whose `LT:Options` key is bound to a
falsy value (`{}`, `null`, …) behaves exactly as if the key were absent —
the run equals the run on the key-erased descriptor unconditionally (first
conjunct, raising runs included); and whenever the browser-name rule
completes without raising, the validator emits its findings followed by
the missing-options error with no warnings, terminating all remaining
capability rules (second conjunct). -/
theorem falsyOptionsActsAsAbsent (enum : List String → List String) (caps : JObj)
    (v : JVal) (h1 : dget caps "LT:Options" = some v) (h2 : truthy v = false) :
    validateCaps enum caps = validateCaps enum (removeKey caps "LT:Options") ∧
    (∀ bErrs : List String, browserCheck (dget caps "browserName") = .ok bErrs →
      validateCaps enum caps = .ok (bErrs ++ [msgMissingLT], [])) := by
  have hmain : ∀ bErrs : List String,
      browserCheck (dget caps "browserName") = .ok bErrs →
      validateCaps enum caps = .ok (bErrs ++ [msgMissingLT], []) := by
    intro bErrs hbr
    unfold validateCaps
    rw [hbr]
    dsimp only
    rw [h1]
    simp only [Option.getD_some]
    rw [h2]
    rfl
  refine ⟨?_, hmain⟩
  unfold validateCaps
  rw [dget_removeKey_self, dget_removeKey_ne caps "LT:Options" "browserName" rfl]
  cases hbc : browserCheck (dget caps "browserName") with
  | error e => rfl
  | ok bErrs =>
    dsimp only
    rw [h1]
    simp only [Option.getD_some]
    rw [h2]
    rfl

/-- Witness for the amended claim C9: `{"browserName": "Chrome",
"LT:Options": {}}`. -/
theorem falsyOptionsActsAsAbsentWitness :
    validateCaps (fun l => l) capsFalsyLT =
      validateCaps (fun l => l) (removeKey capsFalsyLT "LT:Options") ∧
    validateCaps (fun l => l) capsFalsyLT =
      .ok (([] : List String) ++ [msgMissingLT], []) :=
  ⟨(falsyOptionsActsAsAbsent (fun l => l) capsFalsyLT (JVal.obj []) rfl rfl).1,
   (falsyOptionsActsAsAbsent (fun l => l) capsFalsyLT (JVal.obj []) rfl rfl).2 [] rfl⟩

/-- Two runs of the post-`LT:Options` rules that differ only in the
unknown-key enumeration order agree on raising, on every error finding and
on every warning except the unknown-keys message text. -/
theorem validateLT_enum_shape (u₁ u₂ : List String) (browser : Option JVal) (fields : JObj) :
    (∃ e, validateLT u₁ browser fields = .error e ∧ validateLT u₂ browser fields = .error e) ∨
    (∃ es w₁ w₂, validateLT u₁ browser fields = .ok (es, w₁) ∧
      validateLT u₂ browser fields = .ok (es, w₂)) := by
  unfold validateLT
  dsimp only
  cases hpl : pyLowerJ ((dget fields "platformName").getD (JVal.str "")) with
  | error e => exact Or.inl ⟨e, rfl, rfl⟩
  | ok pname =>
    by_cases hm : pname ∈ validMobilePlatforms
    · simp only [if_pos hm]
      cases hios : iosCheck pname browser with
      | error e => exact Or.inl ⟨e, rfl, rfl⟩
      | ok eIos => exact Or.inr ⟨_, _, _, rfl, rfl⟩
    · simp only [if_neg hm]
      cases hd : desktopErrors fields with
      | error e => exact Or.inl ⟨e, rfl, rfl⟩
      | ok eDesk => exact Or.inr ⟨_, _, _, rfl, rfl⟩

/-- A legitimate set enumeration is the identity on sets of at most one
element. -/
theorem enum_eq_of_small (e : List String → List String) (he : ValidEnum e)
    (l : List String) (hl : l.length ≤ 1) : e l = l := by
  cases l with
  | nil => exact List.Perm.eq_nil (he [])
  | cons a t =>
    cases t with
    | nil => exact List.perm_singleton.mp (he [a])
    | cons b r => simp at hl

/-- Claim C3 (as stated) is false: the name `"a:b:c:d@lambdatest"` is a
regex match whose colon prefix has 4 ≠ 3 parts, yet the validator emits no
finding for it (the source tests `len(parts) < 3`, not `!= 3`). -/
theorem cloudRuleNotExactlyThreeRefuted : ¬ ClaimC3 := by
  intro h
  have hm : "a:b:c:d@lambdatest" ∈ cloudProjects c3content := by
    rw [show cloudProjects c3content = ["a:b:c:d@lambdatest"] from rfl]
    exact List.mem_singleton.mpr rfl
  exact absurd (h c3content "a:b:c:d@lambdatest" hm) (by decide)

/-- Claim C3 amended: for each regex match of a quoted project name ending
in `@lambdatest`, the validator emits exactly one error naming that
project when the colon-delimited prefix has *fewer than* 3 parts, and no
finding when it has 3 *or more* parts; the configuration errors are exactly
the `waitForTimeout` finding followed by one finding per malformed match,
and the spec's two concrete examples behave as it states. -/
theorem cloudRuleFewerThanThree :
    (∀ content : String, (validateConfig content).1 =
      (if pyContains content "waitForTimeout" then
        ["Found 'waitForTimeout' in config — this is an anti-pattern. Use web-first assertions"]
      else []) ++ (cloudProjects content).filterMap cloudFinding) ∧
    (∀ proj : String,
      (cloudFinding proj = some (cloudMsg proj) ↔ (cloudProjectParts proj).length < 3) ∧
      (cloudFinding proj = none ↔ ¬((cloudProjectParts proj).length < 3)) ∧
      pyContains (cloudMsg proj) proj = true) ∧
    cloudProjects "name: \"chrome:120:Windows 11@lambdatest\"" =
      ["chrome:120:Windows 11@lambdatest"] ∧
    cloudFinding "chrome:120:Windows 11@lambdatest" = none ∧
    cloudProjects "name: \"chrome:120@lambdatest\"" = ["chrome:120@lambdatest"] ∧
    cloudFinding "chrome:120@lambdatest" = some (cloudMsg "chrome:120@lambdatest") :=
  ⟨fun _ => rfl,
   fun proj =>
    ⟨by by_cases h : (cloudProjectParts proj).length < 3 <;> simp [cloudFinding, h],
     by by_cases h : (cloudProjectParts proj).length < 3 <;> simp [cloudFinding, h],
     pyContains_cloudMsg proj⟩,
   rfl, rfl, rfl, rfl⟩

/-- Claim C6: the descriptor `{"browserName": "pw-webkit", "LT:Options":
{"platformName": "ios", "user": "u", "accessKey": "k", "deviceName":
"iPhone 16", "platformVersion": "18"}}` yields zero error findings (and
exactly the four advisory warnings): a webkit-family browser satisfies the
iOS browser constraint and all required mobile fields are present. -/
theorem webkitIosDescriptorValid :
    validateCaps (fun l => l) caps6 =
      .ok ([], [msgRealMobile, msgBuild, msgVideo, msgNetwork]) := rfl

/-- Claim C7: the descriptor `{"browserName": "Chrome", "LT:Options":
{"platformName": "ios", "user": "u", "accessKey": "k"}}` yields exactly
the missing-device-name, missing-platform-version and iOS-browser-mismatch
errors simultaneously: the three mobile rules fire independently. -/
theorem chromeIosDescriptorThreeErrors :
    validateCaps (fun l => l) caps7 =
      .ok ([msgMissingDeviceName, msgMissingPlatformVersion,
            msgIosMismatch (JVal.str "Chrome")],
           [msgRealMobile, msgBuild, msgVideo, msgNetwork]) := rfl

/-- Claim C8: every structurally unreadable or missing input (configuration
file not found; capability file not found, JSON unparsable, or CLI argument
missing) makes the process exit with code 2 with no finding produced — the
result is a constant, independent of any document, so no rule ran. -/
theorem inputFaultsExitTwo :
    (∀ enum : List String → List String,
       capsMain enum CapsInput.missingArg = (2, [], [])) ∧
    (∀ (enum : List String → List String) (e : CapsLoadErr),
       capsMain enum (CapsInput.loadFail e) = (2, [], [])) ∧
    configMain ConfigInput.fileNotFound = (2, [], []) :=
  ⟨fun _ => rfl, fun _ _ => rfl, rfl⟩

/-- Claim C1 (code bug): the exit-code contract holds for the
configuration-file and skill-directory validators (conjuncts 3 and 4:
exit 0 iff no error finding, exit 1 iff some error finding, warnings
irrelevant), but the capability validator violates it: on the parsed
document `{"LT:Options": {"platformName": null}}` rule evaluation raises
`AttributeError` (`None.lower()`), so the interpreter exits with status 1
although no error-severity finding was produced (conjuncts 1 and 2). -/
theorem capsValidatorCrashExitCodes :
    validateCaps (fun l => l) c1bad = .error PyErr.attributeError ∧
    capsMain (fun l => l) (CapsInput.parsed c1bad) = (1, [], []) ∧
    (∀ content : String,
      ((configMain (ConfigInput.loaded content)).1 = 0 ↔ (validateConfig content).1 = []) ∧
      ((configMain (ConfigInput.loaded content)).1 = 1 ↔ (validateConfig content).1 ≠ [])) ∧
    (∀ items : List Item,
      ((skillsMain items).1 = 0 ↔ (runSkillsScan items).errors = []) ∧
      ((skillsMain items).1 = 1 ↔ (runSkillsScan items).errors ≠ [])) :=
  ⟨rfl, rfl, fun content => exit_flag_spec (validateConfig content).1,
   fun items => exit_flag_spec (runSkillsScan items).errors⟩

/-- On an absent or string-valued browser, the browser rule never raises
and computes the pure `browserErrors` view. -/
theorem browserCheck_typed (browser : Option JVal)
    (hb : browser = none ∨ ∃ b : String, browser = some (JVal.str b)) :
    browserCheck browser = .ok (browserErrors browser) := by
  rcases hb with hb | ⟨b, hb⟩ <;> subst hb
  · rfl
  · cases ht : truthy (JVal.str b) with
    | false => simp [browserCheck, browserErrors, ht]
    | true => simp [browserCheck, browserErrors, ht, pyInStrSet, jvalInStrSet]

/-- A non-empty object is truthy. -/
theorem truthy_obj_of_ne (fields : JObj) (h : fields ≠ []) :
    truthy (JVal.obj fields) = true := by
  cases fields with
  | nil => exact absurd rfl h
  | cons a t => rfl

/-- On an absent or string-valued browser, the iOS browser rule never
raises and computes the pure `iosFindings`. -/
theorem iosCheck_typed (pname : String) (browser : Option JVal)
    (hb : browser = none ∨ ∃ b : String, browser = some (JVal.str b)) :
    iosCheck pname browser = .ok (iosFindings pname browser) := by
  by_cases hp : pname = "ios"
  · rcases hb with hb | ⟨b, hb⟩ <;> subst hb
    · simp [iosCheck, iosFindings, hp]
    · cases he : (b == "") with
      | true =>
        have hbe : b = "" := by simpa using he
        subst hbe
        simp [iosCheck, iosFindings, hp, truthy]
      | false =>
        have hbe : ¬(b = "") := by simpa using he
        by_cases hc : (pyLower b = "pw-webkit" ∨ pyLower b = "webkit")
        · simp [iosCheck, iosFindings, hp, truthy, he, pyLowerJ, hc]
        · simp [iosCheck, iosFindings, hp, truthy, he, pyLowerJ, hc, hbe]
  · rcases hb with hb | ⟨b, hb⟩ <;> subst hb <;> simp [iosCheck, iosFindings, hp]

/-- Claim C4 (as stated) is false: on the descriptor `c4caps`, whose
options object has the two unknown keys `zzz` and `aaa`, two runs whose
set-enumeration orders are both legitimate (identity and reversal of the
insertion order) produce different bytes in the unknown-keys warning, so
the findings are not a function of the document alone. -/
theorem capsFindingsDependOnSetOrder : ¬ ClaimC4 := by
  intro h
  have heq := h (fun l => l) (fun l => l.reverse) (fun l => List.Perm.refl l)
    (fun l => List.reverse_perm l) c4caps
  have e1 : validateCaps (fun l => l) c4caps =
      .ok ([msgMissingBrowser], [msgUnknownKeys ["zzz", "aaa"]]) := rfl
  have e2 : validateCaps (fun l => l.reverse) c4caps =
      .ok ([msgMissingBrowser], [msgUnknownKeys ["aaa", "zzz"]]) := rfl
  rw [e1, e2] at heq
  simp only [Except.ok.injEq, Prod.mk.injEq] at heq
  exact absurd heq.2 (by decide)

/-- Claim C4 amended: re-running a validator on the same document yields
the same error findings (and the same raising behaviour) under any two
legitimate set-enumeration orders; the full output — all warning bytes
included — is identical whenever the options object has at most one
unknown key.  (Only the unknown-keys warning of a descriptor with two or
more unknown keys can differ between runs.) -/
theorem capsDeterministicUpToUnknownKeys (e₁ e₂ : List String → List String)
    (h₁ : ValidEnum e₁) (h₂ : ValidEnum e₂) (caps : JObj) :
    capsErrors e₁ caps = capsErrors e₂ caps ∧
    ((unknownKeysOf caps).length ≤ 1 → validateCaps e₁ caps = validateCaps e₂ caps) := by
  unfold capsErrors validateCaps unknownKeysOf
  cases hbc : browserCheck (dget caps "browserName") with
  | error e => exact ⟨rfl, fun _ => rfl⟩
  | ok bErrs =>
  dsimp only
  cases hlt : (dget caps "LT:Options").getD (JVal.obj []) with
  | str s => exact ⟨rfl, fun _ => rfl⟩
  | bool b => exact ⟨rfl, fun _ => rfl⟩
  | null => exact ⟨rfl, fun _ => rfl⟩
  | num n => exact ⟨rfl, fun _ => rfl⟩
  | obj fields =>
    dsimp only
    cases ht : truthy (JVal.obj fields) with
    | false => refine ⟨?_, fun _ => ?_⟩ <;> simp [ht]
    | true =>
      refine ⟨?_, fun hsmall => ?_⟩
      · rcases validateLT_enum_shape (e₁ (unknownKeys fields)) (e₂ (unknownKeys fields))
          (dget caps "browserName") fields with ⟨e, hA, hB⟩ | ⟨es, w₁, w₂, hA, hB⟩
        · rw [hA, hB]
        · rw [hA, hB]
          rfl
      · rw [enum_eq_of_small e₁ h₁ _ hsmall, enum_eq_of_small e₂ h₂ _ hsmall]

/-- Witness for the amended claim C4: on a descriptor with a single unknown
option key, identity and reversal enumerations agree on the error findings
and on the entire output. -/
theorem capsDeterministicUpToUnknownKeysWitness :
    capsErrors (fun l => l) capsOneUnknown = capsErrors (fun l => l.reverse) capsOneUnknown ∧
    validateCaps (fun l => l) capsOneUnknown =
      validateCaps (fun l => l.reverse) capsOneUnknown :=
  ⟨(capsDeterministicUpToUnknownKeys (fun l => l) (fun l => l.reverse)
      (fun l => List.Perm.refl l) (fun l => List.reverse_perm l) capsOneUnknown).1,
   (capsDeterministicUpToUnknownKeys (fun l => l) (fun l => l.reverse)
      (fun l => List.Perm.refl l) (fun l => List.reverse_perm l) capsOneUnknown).2 (by decide)⟩

/-- Claim C10: mobile classification is case-insensitive on the platform
name — on every descriptor whose (string) `platformName` lower-cases to
`android` or `ios` and whose browser value is absent or a string, the
output is exactly the mobile-branch composition (browser rule, auth rules,
device-name and platform-version rules, iOS rule; `isRealMobile` and
recommendation warnings) and contains no desktop-platform finding; the iOS
comparison is case-insensitive on the browser name and fires only when the
browser name is present and non-empty (see `iosFindings`). -/
theorem mobileClassificationCaseInsensitive (enum : List String → List String)
    (caps fields : JObj) (p : String)
    (hlt : dget caps "LT:Options" = some (JVal.obj fields))
    (hne : fields ≠ [])
    (hp : dget fields "platformName" = some (JVal.str p))
    (hmob : pyLower p ∈ validMobilePlatforms)
    (hb : dget caps "browserName" = none ∨
          ∃ b : String, dget caps "browserName" = some (JVal.str b)) :
    validateCaps enum caps = .ok
      (browserErrors (dget caps "browserName") ++
        (authErrors fields ++ mobileFieldErrors fields ++
          iosFindings (pyLower p) (dget caps "browserName")),
       (if unknownKeys fields = [] then [] else [msgUnknownKeys (enum (unknownKeys fields))]) ++
         realMobileWarnings fields ++ recWarnings fields) := by
  unfold validateCaps
  rw [browserCheck_typed (dget caps "browserName") hb]
  dsimp only
  rw [hlt]
  simp only [Option.getD_some]
  rw [truthy_obj_of_ne fields hne, if_pos rfl]
  unfold validateLT
  rw [hp]
  simp only [Option.getD_some, pyLowerJ]
  rw [if_pos hmob, iosCheck_typed (pyLower p) (dget caps "browserName") hb]

/-- Witness for claim C10: `{"browserName": "Chrome", "LT:Options":
{"platformName": "iOS", "user": "u", "accessKey": "k", "deviceName":
"Pixel 7", "platformVersion": "14"}}` — the mixed-case `iOS` selects the
mobile branch and the case-insensitive iOS rule fires against `Chrome`. -/
theorem mobileClassificationCaseInsensitiveWitness :
    validateCaps (fun l => l) capsMobileW = .ok
      (browserErrors (dget capsMobileW "browserName") ++
        (authErrors fieldsMobileW ++ mobileFieldErrors fieldsMobileW ++
          iosFindings (pyLower "iOS") (dget capsMobileW "browserName")),
       (if unknownKeys fieldsMobileW = [] then []
        else [msgUnknownKeys ((fun l : List String => l) (unknownKeys fieldsMobileW))]) ++
         realMobileWarnings fieldsMobileW ++ recWarnings fieldsMobileW) :=
  mobileClassificationCaseInsensitive (fun l => l) capsMobileW fieldsMobileW "iOS"
    rfl (List.cons_ne_nil _ _) rfl (by decide) (Or.inr ⟨"Chrome", rfl⟩)

end TestMu
